import Mathlib

/-!
# KMDF driver start-up: `DriverEntry` of `KMDF/KMDF/Driver.cpp`

A shallow embedding of `DriverEntry` as a function on an explicit machine
state.  The kernel and framework routines that `DriverEntry` calls
(`WdfDriverCreate`, `IoCreateDevice`, `IoCreateSymbolicLink`,
`IoDeleteDevice`, `operator new`) are not part of the driver; the statuses
and objects they hand back are read from an environment record, and their
effect on the state follows their documented contract; in particular a
successful `WdfDriverCreate` installs the framework's dispatch routine in
every slot of the driver object's dispatch table.  `KdPrint` and
`TraceEvents` only print and are left out.

Every statement that `DriverEntry` executes is recorded together with the
state in which it executed, so that properties of all intermediate states
and of the order of calls can be stated.
-/

namespace KMDF

/-! ## Data model -/

/-- An address; a nullable pointer is an `Option Addr`, `none` being `nullptr`. -/
abbrev Addr := Nat

/-- The type `NTSTATUS` is a signed 32-bit `LONG`. -/
abbrev NTSTATUS := Int

/-- The macro `NT_SUCCESS(Status)` of the kernel headers: `((NTSTATUS)(Status)) >= 0`. -/
def NT_SUCCESS (Status : NTSTATUS) : Bool := decide (0 ≤ Status)

/-- Request-type code `IRP_MJ_CREATE` (wdm.h). -/
def IRP_MJ_CREATE : Nat := 0x00
/-- Request-type code `IRP_MJ_READ` (wdm.h). -/
def IRP_MJ_READ : Nat := 0x03
/-- Request-type code `IRP_MJ_WRITE` (wdm.h). -/
def IRP_MJ_WRITE : Nat := 0x04
/-- Request-type code `IRP_MJ_CLEANUP` (wdm.h). -/
def IRP_MJ_CLEANUP : Nat := 0x12
/-- The largest request-type code (wdm.h); `MajorFunction` has
`IRP_MJ_MAXIMUM_FUNCTION + 1` slots, indexed `0 .. IRP_MJ_MAXIMUM_FUNCTION`. -/
def IRP_MJ_MAXIMUM_FUNCTION : Nat := 0x1b

/-- Device flag `DO_DIRECT_IO` (wdm.h). -/
def DO_DIRECT_IO : Nat := 0x10

/-- The dispatch routines a `MajorFunction` slot can point to: the five
routines of the driver that `DriverEntry` installs (declared in
`DriverCallFun.h`), or a routine that does not belong to the driver,
identified by its entry address. -/
inductive Handler where
  | DriverContrlProcess
  | DriverCreate
  | DriverRead
  | DriverWrite
  | DriverClose
  | other (entry : Addr)
  deriving DecidableEq, Repr

/-- A value of type `PDRIVER_DISPATCH`; `none` is a null pointer. -/
abbrev PDRIVER_DISPATCH := Option Handler

/-- The routines `DRIVER_OBJECT::DriverUnload` can point to. -/
inductive UnloadRoutine where
  | DriverUnload
  | other (entry : Addr)
  deriving DecidableEq, Repr

/-- The fields of `DRIVER_OBJECT` that `DriverEntry` touches. -/
structure DRIVER_OBJECT where
  MajorFunction : Nat → PDRIVER_DISPATCH
  DriverUnload : Option UnloadRoutine

/-- The fields of `DEVICE_OBJECT` that matter here: the name it was created
under and its `Flags` word (a `ULONG`). -/
structure DEVICE_OBJECT where
  Name : String
  Flags : Nat
  deriving DecidableEq, Repr

/-- The part of a `CKmdfManager` instance visible to `DriverEntry`. -/
structure CKmdfManager where
  initialised : Bool
  deriving DecidableEq, Repr

/-- The machine state `DriverEntry` runs on. -/
structure State where
  -- the object the argument `DriverObject` points to
  DriverObject : DRIVER_OBJECT
  -- the device objects that exist, by address
  devices : List (Addr × DEVICE_OBJECT)
  -- the symbolic links that exist: link name and target name
  symlinks : List (String × String)
  -- the `CKmdfManager` instances that exist, by address
  managers : List (Addr × CKmdfManager)
  -- whether the framework driver object exists
  wdfDriver : Bool
  -- whether WPP tracing is active
  wppTracing : Bool
  g_DvriverObject : Option Addr
  g_DvriverControlObject : Option Addr
  g_CKMDFmanager : Option Addr

/-- What the surroundings of `DriverEntry` supply: the two name macros of
`driver.h`, and the outcome of each call into the kernel, the framework and
the allocator. -/
structure Env where
  -- the macro `DRIVER_NAME`
  DRIVER_NAME : String
  -- the macro `DRIVER_SYMBOLICLINK`
  DRIVER_SYMBOLICLINK : String
  -- the status `WdfDriverCreate` returns
  wdfDriverCreateStatus : NTSTATUS
  -- the entry address of the dispatch routine the framework installs
  wdfDispatch : Addr
  -- the status `IoCreateDevice` returns
  ioCreateDeviceStatus : NTSTATUS
  -- the address of the device object `IoCreateDevice` creates when it succeeds
  deviceAddr : Addr
  -- the `Flags` word of that device object as the kernel creates it
  deviceFlags : Nat
  -- the status `IoCreateSymbolicLink` returns
  ioCreateSymbolicLinkStatus : NTSTATUS
  -- the result of `new CKmdfManager`: an instance, or null
  newManager : Option Addr

/-- The statements of `DriverEntry` that change the state. -/
inductive Stmt where
  | store_g_DvriverObject
  | WPP_INIT_TRACING
  | WdfDriverCreate
  | WPP_CLEANUP
  | IoCreateDevice
  | IoCreateSymbolicLink
  | IoDeleteDevice (DeviceObject : Option Addr)
  | storeMajorFunction (i : Nat) (h : Handler)
  | storeDriverUnload
  | orFlags
  | newCKmdfManager
  | InitManager (self : Addr)
  deriving DecidableEq, Repr

/-- The record of a run: every statement executed so far, in order, each with
the state in which it was executed, and the current state. -/
structure Run where
  trace : List (State × Stmt)
  cur : State

/-- A run that has not executed anything yet. -/
def Run.start (s : State) : Run := ⟨[], s⟩

/-- Execute one statement: record it and move to the state it produces. -/
def Run.exec (r : Run) (c : Stmt) (f : State → State) : Run :=
  ⟨r.trace ++ [(r.cur, c)], f r.cur⟩

/-- All states a run has passed through, in order, the current one last. -/
def Run.states (r : Run) : List State := r.trace.map Prod.fst ++ [r.cur]

/-- The statements a run has executed, in order. -/
def Run.stmts (r : Run) : List Stmt := r.trace.map Prod.snd

/-! ## The routines `DriverEntry` calls -/

/-- The macro `WPP_INIT_TRACING`: tracing becomes active. -/
def WPP_INIT_TRACING (s : State) : State := { s with wppTracing := true }

/-- The macro `WPP_CLEANUP`: tracing stops. -/
def WPP_CLEANUP (s : State) : State := { s with wppTracing := false }

/-- The framework routine `WdfDriverCreate`, called with the configuration
`WDF_DRIVER_CONFIG_INIT` builds (lines 87-96: `DriverInitFlags` is 0).  On
success the framework driver object exists and the framework has installed
its own dispatch routine, a routine that is not of this driver, in every slot
`0 .. IRP_MJ_MAXIMUM_FUNCTION` of `DriverObject->MajorFunction`; on failure
nothing was created and the driver object is as it was. -/
def WdfDriverCreate (env : Env) (s : State) : State :=
  if NT_SUCCESS env.wdfDriverCreateStatus then
    { s with
      wdfDriver := true
      DriverObject :=
        { s.DriverObject with
          MajorFunction := fun j =>
            if j ≤ IRP_MJ_MAXIMUM_FUNCTION then some (.other env.wdfDispatch)
            else s.DriverObject.MajorFunction j } }
  else s

/-- The kernel routine `IoCreateDevice` called with `&g_DvriverControlObject`
as its last argument: on success a device object named `DeviceName` exists
and the global receives its address; on failure nothing is created and the
global is not written. -/
def IoCreateDevice (env : Env) (DeviceName : String) (s : State) : State :=
  if NT_SUCCESS env.ioCreateDeviceStatus then
    { s with
      devices := (env.deviceAddr, ⟨DeviceName, env.deviceFlags⟩) :: s.devices
      g_DvriverControlObject := some env.deviceAddr }
  else s

/-- The kernel routine `IoCreateSymbolicLink`: on success the link exists, on
failure nothing is created. -/
def IoCreateSymbolicLink (env : Env) (SymbolicLinkName DeviceName : String)
    (s : State) : State :=
  if NT_SUCCESS env.ioCreateSymbolicLinkStatus then
    { s with symlinks := (SymbolicLinkName, DeviceName) :: s.symlinks }
  else s

/-- The kernel routine `IoDeleteDevice`: the device object at the given
address no longer exists. -/
def IoDeleteDevice (DeviceObject : Option Addr) (s : State) : State :=
  match DeviceObject with
  | none => s
  | some a => { s with devices := s.devices.filter (fun d => d.1 ≠ a) }

/-- The assignment `DriverObject->MajorFunction[i] = h`. -/
def storeMajorFunction (i : Nat) (h : Handler) (s : State) : State :=
  { s with
    DriverObject :=
      { s.DriverObject with
        MajorFunction := fun j => if j = i then some h else s.DriverObject.MajorFunction j } }

/-- The assignment `DriverObject->DriverUnload = DriverUnload`. -/
def storeDriverUnload (s : State) : State :=
  { s with DriverObject := { s.DriverObject with DriverUnload := some .DriverUnload } }

/-- The statement `p->Flags |= bits` on the device object `p` points to. -/
def orFlags (p : Option Addr) (bits : Nat) (s : State) : State :=
  match p with
  | none => s
  | some a =>
    { s with
      devices := s.devices.map
        (fun d => if d.1 = a then (d.1, { d.2 with Flags := d.2.Flags ||| bits }) else d) }

/-- Modelled from the spec: the constructor of `CKmdfManager`, defined in
`KmdfManager.h`/`KmdfManager.cpp`, which are not among the sources.  The spec
gives the manager the contract `Create() → instance`, followed by an
explicit init call: construction yields an instance that is not yet
initialised and touches nothing else. -/
def CKmdfManager.construct : CKmdfManager := ⟨false⟩

/-- The statement `g_CKMDFmanager = new CKmdfManager`: the global receives the
allocator's result; when that is an instance, the instance exists, as its
constructor leaves it. -/
def newCKmdfManager (env : Env) (s : State) : State :=
  match env.newManager with
  | none => { s with g_CKMDFmanager := none }
  | some m =>
    { s with managers := (m, CKmdfManager.construct) :: s.managers, g_CKMDFmanager := some m }

/-- Modelled from the spec: `CKmdfManager::InitManager`, defined in
`KmdfManager.h`/`KmdfManager.cpp`, which are not among the sources.  The spec
gives the manager the contract `Init(instance) → status` on the instance it
owns; the call initialises the instance it is invoked on and nothing else.
`DriverEntry` discards its result. -/
def InitManager (self : Addr) (s : State) : State :=
  { s with
    managers := s.managers.map (fun m => if m.1 = self then (m.1, ⟨true⟩) else m) }

/-- The device object at an address, if one exists. -/
def deviceAt (s : State) (a : Addr) : Option DEVICE_OBJECT :=
  (s.devices.find? (fun d => d.1 = a)).map Prod.snd

/-- The loop of lines 128-131:
`for (int i = 0; i < IRP_MJ_MAXIMUM_FUNCTION; ++i) MajorFunction[i] = DriverContrlProcess;`
run over the list of the values `i` takes; in `DriverEntry` these are
`0, 1, ..., IRP_MJ_MAXIMUM_FUNCTION - 1`, the values below the bound of the
loop condition. -/
def fillLoop (is : List Nat) (r : Run) : Run :=
  is.foldl
    (fun r i => r.exec (.storeMajorFunction i .DriverContrlProcess)
      (storeMajorFunction i .DriverContrlProcess))
    r

/-- Lines 144-147:
`if ( g_CKMDFmanager != nullptr ) { g_CKMDFmanager->InitManager( ); }`. -/
def initIfPresent (r : Run) : Run :=
  match r.cur.g_CKMDFmanager with
  | some m => r.exec (.InitManager m) (InitManager m)
  | none => r

/-! ## `DriverEntry` -/

/-- The function `DriverEntry` of `Driver.cpp` (lines 33-151).  The result is
the returned status and the record of the run. -/
def DriverEntry (env : Env) (DriverObject : Addr) (s0 : State) : NTSTATUS × Run :=
  let r := Run.start s0
  -- line 70
  let r := r.exec .store_g_DvriverObject (fun s => { s with g_DvriverObject := some DriverObject })
  -- line 76
  let r := r.exec .WPP_INIT_TRACING WPP_INIT_TRACING
  -- lines 91-96
  let status := env.wdfDriverCreateStatus
  let r := r.exec .WdfDriverCreate (WdfDriverCreate env)
  -- lines 98-102
  if !NT_SUCCESS status then
    let r := r.exec .WPP_CLEANUP WPP_CLEANUP
    (status, r)
  else
    -- lines 105-107
    let DriverName := env.DRIVER_NAME
    let status := env.ioCreateDeviceStatus
    let r := r.exec .IoCreateDevice (IoCreateDevice env DriverName)
    -- lines 108-114
    if !NT_SUCCESS status then
      (status, r)
    else
      -- lines 116-117
      let DriverSymblicName := env.DRIVER_SYMBOLICLINK
      let status := env.ioCreateSymbolicLinkStatus
      let r := r.exec .IoCreateSymbolicLink (IoCreateSymbolicLink env DriverSymblicName DriverName)
      -- lines 118-126
      if !NT_SUCCESS status then
        let r := r.exec (.IoDeleteDevice r.cur.g_DvriverControlObject)
          (fun s => IoDeleteDevice s.g_DvriverControlObject s)
        (status, r)
      else
        -- lines 128-131
        let r := fillLoop (List.range IRP_MJ_MAXIMUM_FUNCTION) r
        -- lines 133-137
        let r := r.exec (.storeMajorFunction IRP_MJ_CREATE .DriverCreate)
          (storeMajorFunction IRP_MJ_CREATE .DriverCreate)
        let r := r.exec (.storeMajorFunction IRP_MJ_READ .DriverRead)
          (storeMajorFunction IRP_MJ_READ .DriverRead)
        let r := r.exec (.storeMajorFunction IRP_MJ_WRITE .DriverWrite)
          (storeMajorFunction IRP_MJ_WRITE .DriverWrite)
        let r := r.exec (.storeMajorFunction IRP_MJ_CLEANUP .DriverClose)
          (storeMajorFunction IRP_MJ_CLEANUP .DriverClose)
        let r := r.exec .storeDriverUnload storeDriverUnload
        -- line 139
        let r := r.exec .orFlags (fun s => orFlags s.g_DvriverControlObject DO_DIRECT_IO s)
        -- line 143
        let r := r.exec .newCKmdfManager (newCKmdfManager env)
        -- lines 144-147
        let r := initIfPresent r
        -- line 150
        (status, r)

/-- The state at return. -/
def finalState (env : Env) (DriverObject : Addr) (s0 : State) : State :=
  (DriverEntry env DriverObject s0).2.cur

/-! ## Vocabulary of the properties -/

/-- Whether the alias exists: a symbolic link named `DRIVER_SYMBOLICLINK`. -/
def aliasExists (env : Env) (s : State) : Bool :=
  s.symlinks.any (fun l => l.1 == env.DRIVER_SYMBOLICLINK)

/-- Whether the device exists: a device object named `DRIVER_NAME`. -/
def deviceExists (env : Env) (s : State) : Bool :=
  s.devices.any (fun d => d.2.Name == env.DRIVER_NAME)

/-- Whether `g_DvriverControlObject` designates a device object that exists. -/
def handleLive (s : State) : Bool :=
  match s.g_DvriverControlObject with
  | none => false
  | some a => (deviceAt s a).isSome

/-- The start-up stage a statement belongs to: 1 framework driver creation,
2 device creation, 3 alias creation, 4 dispatch-table population and device
flags, 5 manager construction and initialisation; 0 for tracing, the global
assignment of line 70 and the rollback. -/
def Stmt.stage : Stmt → Nat
  | .WdfDriverCreate => 1
  | .IoCreateDevice => 2
  | .IoCreateSymbolicLink => 3
  | .storeMajorFunction _ _ => 4
  | .storeDriverUnload => 4
  | .orFlags => 4
  | .newCKmdfManager => 5
  | .InitManager _ => 5
  | _ => 0

/-- Closed form of the state after the loop of lines 128-131 has run over `is`. -/
def fillState (is : List Nat) (s : State) : State :=
  { s with
    DriverObject :=
      { s.DriverObject with
        MajorFunction := fun j =>
          if j ∈ is then some .DriverContrlProcess else s.DriverObject.MajorFunction j } }

/-- Closed form of what the loop of lines 128-131 adds to the trace. -/
def fillTrace : List Nat → State → List (State × Stmt)
  | [], _ => []
  | i :: is, s =>
    (s, .storeMajorFunction i .DriverContrlProcess)
      :: fillTrace is (storeMajorFunction i .DriverContrlProcess s)

/-! ## Concrete inputs -/

/-- A driver object whose slots are all null. -/
def nullDriverObject : DRIVER_OBJECT := ⟨fun _ => none, none⟩

/-- A driver object as the I/O manager hands it over: every slot points to a
routine of the kernel, the routine at entry address 1. -/
def kernelDriverObject : DRIVER_OBJECT := ⟨fun _ => some (.other 1), none⟩

/-- A state with no device, no link, no manager and null globals. -/
def emptyState (d : DRIVER_OBJECT) : State :=
  { DriverObject := d, devices := [], symlinks := [], managers := [],
    wdfDriver := false, wppTracing := false,
    g_DvriverObject := none, g_DvriverControlObject := none, g_CKMDFmanager := none }

/-- An environment in which the three stages return the given statuses; the
framework's dispatch routine is the routine at entry address 2. -/
def envWith (wdf dev link : NTSTATUS) (m : Option Addr) : Env :=
  { DRIVER_NAME := "dev", DRIVER_SYMBOLICLINK := "link",
    wdfDriverCreateStatus := wdf, wdfDispatch := 2, ioCreateDeviceStatus := dev,
    deviceAddr := 4096, deviceFlags := 0x80, ioCreateSymbolicLinkStatus := link,
    newManager := m }

/-! ## The run record and the loop -/

/-- The state after a statement. -/
@[simp] theorem Run.exec_cur (r : Run) (c : Stmt) (f : State → State) :
    (r.exec c f).cur = f r.cur := rfl

/-- The trace after a statement. -/
@[simp] theorem Run.exec_trace (r : Run) (c : Stmt) (f : State → State) :
    (r.exec c f).trace = r.trace ++ [(r.cur, c)] := rfl

/-- The state of a run at its start. -/
@[simp] theorem Run.start_cur (s : State) : (Run.start s).cur = s := rfl

/-- The trace of a run at its start. -/
@[simp] theorem Run.start_trace (s : State) : (Run.start s).trace = [] := rfl

/-- The loop ends in the state `fillState` describes. -/
theorem fillLoop_cur (is : List Nat) (r : Run) :
    (fillLoop is r).cur = fillState is r.cur := by
  induction is generalizing r with
  | nil => simp [fillLoop, fillState]
  | cons i is ih =>
    have h := ih (r.exec (.storeMajorFunction i .DriverContrlProcess)
      (storeMajorFunction i .DriverContrlProcess))
    simp only [fillLoop, List.foldl_cons] at h ⊢
    rw [h]
    simp only [fillState, storeMajorFunction, Run.exec_cur, List.mem_cons]
    congr 2
    funext j
    by_cases h1 : j ∈ is <;> by_cases h2 : j = i <;> simp [h1, h2]

/-- The loop extends the trace by what `fillTrace` describes. -/
theorem fillLoop_trace (is : List Nat) (r : Run) :
    (fillLoop is r).trace = r.trace ++ fillTrace is r.cur := by
  induction is generalizing r with
  | nil => simp [fillLoop, fillTrace]
  | cons i is ih =>
    have h := ih (r.exec (.storeMajorFunction i .DriverContrlProcess)
      (storeMajorFunction i .DriverContrlProcess))
    simp only [fillLoop, List.foldl_cons] at h ⊢
    rw [h]
    simp [fillTrace]

/-- Every statement of the loop is a store of the generic handler into a slot
the loop visits, executed in a state that differs from the state at loop
entry in the dispatch table only. -/
theorem fillTrace_frame (is : List Nat) (s t : State) (c : Stmt)
    (h : (t, c) ∈ fillTrace is s) :
    t.devices = s.devices ∧ t.symlinks = s.symlinks ∧ t.managers = s.managers ∧
    t.g_DvriverControlObject = s.g_DvriverControlObject ∧
    t.g_CKMDFmanager = s.g_CKMDFmanager ∧
    ∃ i, i ∈ is ∧ c = .storeMajorFunction i .DriverContrlProcess := by
  induction is generalizing s with
  | nil => simp [fillTrace] at h
  | cons i is ih =>
    simp only [fillTrace, List.mem_cons, Prod.mk.injEq] at h
    rcases h with ⟨rfl, rfl⟩ | h
    · simp
    · obtain ⟨h1, h2, h3, h4, h5, j, hj, hc⟩ := ih _ h
      refine ⟨h1, h2, h3, h4, h5, j, ?_, hc⟩
      simp [hj]

/-- A property of trace entries holds for every entry the loop adds as soon
as it holds for stores of the generic handler in states that agree with the
state at loop entry outside the dispatch table. -/
theorem fillTrace_forall (Q : State × Stmt → Prop) (is : List Nat) (s : State)
    (hQ : ∀ t i, t.devices = s.devices → t.symlinks = s.symlinks →
      t.managers = s.managers →
      t.g_DvriverControlObject = s.g_DvriverControlObject →
      t.g_CKMDFmanager = s.g_CKMDFmanager → i ∈ is →
      Q (t, .storeMajorFunction i .DriverContrlProcess)) :
    ∀ p ∈ fillTrace is s, Q p := by
  rintro ⟨t, c⟩ hp
  obtain ⟨h1, h2, h3, h4, h5, i, hi, rfl⟩ := fillTrace_frame is s t c hp
  exact hQ t i h1 h2 h3 h4 h5 hi

/-- The statements the loop executes. -/
theorem fillTrace_stmts (is : List Nat) (s : State) :
    (fillTrace is s).map Prod.snd
      = is.map (fun i => Stmt.storeMajorFunction i .DriverContrlProcess) := by
  induction is generalizing s with
  | nil => rfl
  | cons i is ih => simp [fillTrace, ih]

/-- A property of trace entries that holds before a statement and for the
statement holds after it. -/
theorem trace_exec (Q : State × Stmt → Prop) (r : Run) (c : Stmt) (f : State → State)
    (hr : ∀ p ∈ r.trace, Q p) (hc : Q (r.cur, c)) :
    ∀ p ∈ (r.exec c f).trace, Q p := by
  intro p hp
  simp only [Run.exec_trace, List.mem_append, List.mem_singleton] at hp
  rcases hp with hp | rfl
  · exact hr p hp
  · exact hc

/-- A property of trace entries that holds before the loop and for every
store of the loop holds after it. -/
theorem trace_fillLoop (Q : State × Stmt → Prop) (is : List Nat) (r : Run)
    (hr : ∀ p ∈ r.trace, Q p)
    (hQ : ∀ t i, t.devices = r.cur.devices → t.symlinks = r.cur.symlinks →
      t.managers = r.cur.managers →
      t.g_DvriverControlObject = r.cur.g_DvriverControlObject →
      t.g_CKMDFmanager = r.cur.g_CKMDFmanager → i ∈ is →
      Q (t, .storeMajorFunction i .DriverContrlProcess)) :
    ∀ p ∈ (fillLoop is r).trace, Q p := by
  intro p hp
  simp only [fillLoop_trace, List.mem_append] at hp
  rcases hp with hp | hp
  · exact hr p hp
  · exact fillTrace_forall Q is r.cur hQ p hp

/-- Nothing has been executed at the start. -/
theorem trace_start (Q : State × Stmt → Prop) (s : State) :
    ∀ p ∈ (Run.start s).trace, Q p := by
  simp

/-- The states of a run are the states of its trace entries and the current one. -/
theorem mem_states (r : Run) (t : State) :
    t ∈ r.states ↔ (∃ c, (t, c) ∈ r.trace) ∨ t = r.cur := by
  simp [Run.states]

/-- After line 143 `g_CKMDFmanager` is what `new` yielded. -/
@[simp] theorem newCKmdfManager_g (env : Env) (s : State) :
    (newCKmdfManager env s).g_CKMDFmanager = env.newManager := by
  cases h : env.newManager <;> simp [newCKmdfManager, h]

/-- A property of trace entries that holds before lines 144-147 and for the
call of `InitManager` on the instance `g_CKMDFmanager` points to holds after
them. -/
theorem trace_initIfPresent (Q : State × Stmt → Prop) (r : Run)
    (hr : ∀ p ∈ r.trace, Q p)
    (hc : ∀ m, r.cur.g_CKMDFmanager = some m → Q (r.cur, .InitManager m)) :
    ∀ p ∈ (initIfPresent r).trace, Q p := by
  unfold initIfPresent
  cases h : r.cur.g_CKMDFmanager with
  | none => exact hr
  | some m => exact trace_exec Q r _ _ hr (hc m h)

/-- The state after lines 144-147. -/
theorem initIfPresent_cur (r : Run) :
    (initIfPresent r).cur =
      match r.cur.g_CKMDFmanager with
      | some m => InitManager m r.cur
      | none => r.cur := by
  unfold initIfPresent
  cases h : r.cur.g_CKMDFmanager <;> rfl

/-- Line 143 leaves the device objects alone. -/
@[simp] theorem newCKmdfManager_devices (env : Env) (s : State) :
    (newCKmdfManager env s).devices = s.devices := by
  cases h : env.newManager <;> simp [newCKmdfManager, h]

/-- Line 143 leaves the symbolic links alone. -/
@[simp] theorem newCKmdfManager_symlinks (env : Env) (s : State) :
    (newCKmdfManager env s).symlinks = s.symlinks := by
  cases h : env.newManager <;> simp [newCKmdfManager, h]

/-- Line 143 leaves the driver object alone. -/
@[simp] theorem newCKmdfManager_DriverObject (env : Env) (s : State) :
    (newCKmdfManager env s).DriverObject = s.DriverObject := by
  cases h : env.newManager <;> simp [newCKmdfManager, h]

/-- Line 143 leaves `g_DvriverControlObject` alone. -/
@[simp] theorem newCKmdfManager_handle (env : Env) (s : State) :
    (newCKmdfManager env s).g_DvriverControlObject = s.g_DvriverControlObject := by
  cases h : env.newManager <;> simp [newCKmdfManager, h]

/-- What lines 144-147 add to the trace. -/
theorem initIfPresent_trace (r : Run) :
    (initIfPresent r).trace =
      r.trace ++
        match r.cur.g_CKMDFmanager with
        | some m => [(r.cur, Stmt.InitManager m)]
        | none => [] := by
  unfold initIfPresent
  cases h : r.cur.g_CKMDFmanager <;> simp

/-- The statements of a successful run, in order. -/
theorem DriverEntry_stmts_success (env : Env) (D : Addr) (s0 : State)
    (h1 : NT_SUCCESS env.wdfDriverCreateStatus = true)
    (h2 : NT_SUCCESS env.ioCreateDeviceStatus = true)
    (h3 : NT_SUCCESS env.ioCreateSymbolicLinkStatus = true) :
    (DriverEntry env D s0).2.stmts =
      [Stmt.store_g_DvriverObject, .WPP_INIT_TRACING, .WdfDriverCreate, .IoCreateDevice,
          .IoCreateSymbolicLink]
        ++ (List.range IRP_MJ_MAXIMUM_FUNCTION).map
          (fun i => Stmt.storeMajorFunction i .DriverContrlProcess)
        ++ [Stmt.storeMajorFunction IRP_MJ_CREATE .DriverCreate,
          .storeMajorFunction IRP_MJ_READ .DriverRead,
          .storeMajorFunction IRP_MJ_WRITE .DriverWrite,
          .storeMajorFunction IRP_MJ_CLEANUP .DriverClose,
          .storeDriverUnload, .orFlags, .newCKmdfManager]
        ++ (match env.newManager with
          | some m => [Stmt.InitManager m]
          | none => []) := by
  simp only [DriverEntry, h1, h2, h3, Bool.not_true, Bool.false_eq_true, if_false, Run.stmts,
    initIfPresent_trace, Run.exec_trace, Run.exec_cur, fillLoop_trace, Run.start_trace,
    newCKmdfManager_g, List.map_append, fillTrace_stmts]
  cases env.newManager <;> simp

/-- Lines 144-147 leave the driver object alone. -/
@[simp] theorem initIfPresent_DriverObject (r : Run) :
    (initIfPresent r).cur.DriverObject = r.cur.DriverObject := by
  rw [initIfPresent_cur]
  cases r.cur.g_CKMDFmanager <;> simp [InitManager]

/-- Lines 144-147 leave the device objects alone. -/
@[simp] theorem initIfPresent_devices (r : Run) :
    (initIfPresent r).cur.devices = r.cur.devices := by
  rw [initIfPresent_cur]
  cases r.cur.g_CKMDFmanager <;> simp [InitManager]

/-- Lines 144-147 leave the symbolic links alone. -/
@[simp] theorem initIfPresent_symlinks (r : Run) :
    (initIfPresent r).cur.symlinks = r.cur.symlinks := by
  rw [initIfPresent_cur]
  cases r.cur.g_CKMDFmanager <;> simp [InitManager]

/-- Lines 144-147 leave `g_DvriverControlObject` alone. -/
@[simp] theorem initIfPresent_handle (r : Run) :
    (initIfPresent r).cur.g_DvriverControlObject = r.cur.g_DvriverControlObject := by
  rw [initIfPresent_cur]
  cases r.cur.g_CKMDFmanager <;> simp [InitManager]

/-- Lines 144-147 leave `g_CKMDFmanager` alone. -/
@[simp] theorem initIfPresent_manager (r : Run) :
    (initIfPresent r).cur.g_CKMDFmanager = r.cur.g_CKMDFmanager := by
  rw [initIfPresent_cur]
  cases h : r.cur.g_CKMDFmanager <;> simp [InitManager, h]

/-! ## The dispatch table -/

/-- The dispatch table at return of a successful run: the four overridden
slots, the generic handler in every other slot below
`IRP_MJ_MAXIMUM_FUNCTION`, the framework's dispatch routine in the slot
`IRP_MJ_MAXIMUM_FUNCTION`, and the previous content beyond the table. -/
theorem DriverEntry_table (env : Env) (D : Addr) (s0 : State)
    (h : NT_SUCCESS (DriverEntry env D s0).1 = true) (i : Nat) :
    (finalState env D s0).DriverObject.MajorFunction i =
      if i = IRP_MJ_CLEANUP then some .DriverClose
      else if i = IRP_MJ_WRITE then some .DriverWrite
      else if i = IRP_MJ_READ then some .DriverRead
      else if i = IRP_MJ_CREATE then some .DriverCreate
      else if i < IRP_MJ_MAXIMUM_FUNCTION then some .DriverContrlProcess
      else if i ≤ IRP_MJ_MAXIMUM_FUNCTION then some (.other env.wdfDispatch)
      else s0.DriverObject.MajorFunction i := by
  cases h1 : NT_SUCCESS env.wdfDriverCreateStatus
  · simp [DriverEntry, h1] at h
  cases h2 : NT_SUCCESS env.ioCreateDeviceStatus
  · simp [DriverEntry, h1, h2] at h
  cases h3 : NT_SUCCESS env.ioCreateSymbolicLinkStatus
  · simp [DriverEntry, h1, h2, h3] at h
  simp [finalState, DriverEntry, h1, h2, h3, fillLoop_cur, WPP_INIT_TRACING, WdfDriverCreate,
    IoCreateDevice, IoCreateSymbolicLink, storeMajorFunction, storeDriverUnload, orFlags,
    fillState]

/-- The slot `MajorFunction[IRP_MJ_MAXIMUM_FUNCTION]` is not written by the
statements of `DriverEntry`: the loop stops below it and no override
addresses it, so after a successful run it holds what `WdfDriverCreate` put
there, the framework's dispatch routine. -/
theorem DriverEntry_last_slot (env : Env) (D : Addr) (s0 : State)
    (h : NT_SUCCESS (DriverEntry env D s0).1 = true) :
    (finalState env D s0).DriverObject.MajorFunction IRP_MJ_MAXIMUM_FUNCTION
      = some (.other env.wdfDispatch) := by
  rw [DriverEntry_table env D s0 h]
  simp [IRP_MJ_MAXIMUM_FUNCTION, IRP_MJ_CLEANUP, IRP_MJ_WRITE, IRP_MJ_READ, IRP_MJ_CREATE]

/-- Every slot below `IRP_MJ_MAXIMUM_FUNCTION` holds a handler of the driver
after a successful run, whatever it held before. -/
theorem DriverEntry_slots_below_last (env : Env) (D : Addr) (s0 : State)
    (h : NT_SUCCESS (DriverEntry env D s0).1 = true) (i : Nat)
    (hi : i < IRP_MJ_MAXIMUM_FUNCTION) :
    (finalState env D s0).DriverObject.MajorFunction i = some .DriverCreate ∨
    (finalState env D s0).DriverObject.MajorFunction i = some .DriverRead ∨
    (finalState env D s0).DriverObject.MajorFunction i = some .DriverWrite ∨
    (finalState env D s0).DriverObject.MajorFunction i = some .DriverClose ∨
    (finalState env D s0).DriverObject.MajorFunction i = some .DriverContrlProcess := by
  rw [DriverEntry_table env D s0 h]
  split_ifs <;> simp

/-- The status `DriverEntry` returns is a success exactly when the three
stages succeed. -/
theorem DriverEntry_success_iff (env : Env) (D : Addr) (s0 : State) :
    NT_SUCCESS (DriverEntry env D s0).1 = true ↔
      (NT_SUCCESS env.wdfDriverCreateStatus = true ∧
        NT_SUCCESS env.ioCreateDeviceStatus = true ∧
        NT_SUCCESS env.ioCreateSymbolicLinkStatus = true) := by
  cases h1 : NT_SUCCESS env.wdfDriverCreateStatus
  · simp [DriverEntry, h1]
  cases h2 : NT_SUCCESS env.ioCreateDeviceStatus
  · simp [DriverEntry, h1, h2]
  cases h3 : NT_SUCCESS env.ioCreateSymbolicLinkStatus <;> simp [DriverEntry, h1, h2, h3]

/-- C1: after a successful `DriverEntry` every slot `MajorFunction[i]` with
`0 <= i <= IRP_MJ_MAXIMUM_FUNCTION` holds a non-null handler, whatever the
table held before `DriverEntry` ran: the slots below
`IRP_MJ_MAXIMUM_FUNCTION` hold what lines 128-136 stored, the slot
`IRP_MJ_MAXIMUM_FUNCTION` holds the dispatch routine the framework installed
at line 91. -/
theorem C1_no_gaps_after_installation (env : Env) (D : Addr) (s0 : State)
    (h : NT_SUCCESS (DriverEntry env D s0).1 = true) (i : Nat)
    (hi : i ≤ IRP_MJ_MAXIMUM_FUNCTION) :
    (finalState env D s0).DriverObject.MajorFunction i ≠ none := by
  rw [DriverEntry_table env D s0 h]
  split_ifs <;> simp

/-- C1 at a concrete successful run that starts from a driver object whose
slots are all null: the last slot of the table is non-null at return. -/
theorem C1_no_gaps_after_installation_witness :
    NT_SUCCESS (DriverEntry (envWith 0 0 0 none) 1 (emptyState nullDriverObject)).1 = true ∧
    IRP_MJ_MAXIMUM_FUNCTION ≤ IRP_MJ_MAXIMUM_FUNCTION ∧
    (finalState (envWith 0 0 0 none) 1 (emptyState nullDriverObject)).DriverObject.MajorFunction
      IRP_MJ_MAXIMUM_FUNCTION ≠ none :=
  ⟨by decide, by decide,
    C1_no_gaps_after_installation (envWith 0 0 0 none) 1 (emptyState nullDriverObject)
      (by decide) IRP_MJ_MAXIMUM_FUNCTION (by decide)⟩

/-- C2: after a successful `DriverEntry` the slots of `IRP_MJ_CREATE`,
`IRP_MJ_READ`, `IRP_MJ_WRITE` and `IRP_MJ_CLEANUP` hold `DriverCreate`,
`DriverRead`, `DriverWrite` and `DriverClose`, and none of them holds the
generic handler `DriverContrlProcess`. -/
theorem C2_overrides_installed (env : Env) (D : Addr) (s0 : State)
    (h : NT_SUCCESS (DriverEntry env D s0).1 = true) :
    ((finalState env D s0).DriverObject.MajorFunction IRP_MJ_CREATE = some .DriverCreate ∧
      (finalState env D s0).DriverObject.MajorFunction IRP_MJ_READ = some .DriverRead ∧
      (finalState env D s0).DriverObject.MajorFunction IRP_MJ_WRITE = some .DriverWrite ∧
      (finalState env D s0).DriverObject.MajorFunction IRP_MJ_CLEANUP = some .DriverClose) ∧
    ((finalState env D s0).DriverObject.MajorFunction IRP_MJ_CREATE
        ≠ some .DriverContrlProcess ∧
      (finalState env D s0).DriverObject.MajorFunction IRP_MJ_READ
        ≠ some .DriverContrlProcess ∧
      (finalState env D s0).DriverObject.MajorFunction IRP_MJ_WRITE
        ≠ some .DriverContrlProcess ∧
      (finalState env D s0).DriverObject.MajorFunction IRP_MJ_CLEANUP
        ≠ some .DriverContrlProcess) := by
  simp [DriverEntry_table env D s0 h, IRP_MJ_CREATE, IRP_MJ_READ, IRP_MJ_WRITE, IRP_MJ_CLEANUP]

/-- C2 at a concrete successful run. -/
theorem C2_overrides_installed_witness :
    NT_SUCCESS (DriverEntry (envWith 0 0 0 (some 7)) 1 (emptyState kernelDriverObject)).1 = true ∧
    (finalState (envWith 0 0 0 (some 7)) 1 (emptyState kernelDriverObject)).DriverObject.MajorFunction
      IRP_MJ_READ = some .DriverRead :=
  ⟨by decide, (C2_overrides_installed _ _ _ (by decide)).1.2.1⟩

/-- C3, evaluated at the failing input: on a driver object whose slots all
point to a routine of the kernel `DriverEntry` returns a success status, and
the slot `MajorFunction[IRP_MJ_MAXIMUM_FUNCTION]`, which is none of the four
overridden ones, points to the dispatch routine the framework installed and
not to `DriverContrlProcess`: the loop of lines 128-131 stops one slot
short. -/
theorem C3_last_slot_not_default :
    NT_SUCCESS (DriverEntry (envWith 0 0 0 none) 1 (emptyState kernelDriverObject)).1 = true ∧
    IRP_MJ_MAXIMUM_FUNCTION ≠ IRP_MJ_CREATE ∧ IRP_MJ_MAXIMUM_FUNCTION ≠ IRP_MJ_READ ∧
    IRP_MJ_MAXIMUM_FUNCTION ≠ IRP_MJ_WRITE ∧ IRP_MJ_MAXIMUM_FUNCTION ≠ IRP_MJ_CLEANUP ∧
    (finalState (envWith 0 0 0 none) 1 (emptyState kernelDriverObject)).DriverObject.MajorFunction
      IRP_MJ_MAXIMUM_FUNCTION = some (.other 2) ∧
    (finalState (envWith 0 0 0 none) 1 (emptyState kernelDriverObject)).DriverObject.MajorFunction
      IRP_MJ_MAXIMUM_FUNCTION ≠ some .DriverContrlProcess := by
  decide

/-! ## Status and stages -/

/-- C4: `DriverEntry` returns a success status exactly when `WdfDriverCreate`,
`IoCreateDevice` and `IoCreateSymbolicLink` all do; when one of them fails,
`DriverEntry` returns the status of the first that fails, no statement of a
later stage is executed, the unload routine, the manager instances and
`g_CKMDFmanager` are as they were at entry, and the dispatch table is as
`WdfDriverCreate` left it (as at entry when `WdfDriverCreate` failed): no
statement of `DriverEntry` stored into it. -/
theorem C4_status_of_first_failure (env : Env) (D : Addr) (s0 : State) :
    (NT_SUCCESS (DriverEntry env D s0).1 = true ↔
      (NT_SUCCESS env.wdfDriverCreateStatus = true ∧
        NT_SUCCESS env.ioCreateDeviceStatus = true ∧
        NT_SUCCESS env.ioCreateSymbolicLinkStatus = true)) ∧
    (NT_SUCCESS env.wdfDriverCreateStatus = false →
      (DriverEntry env D s0).1 = env.wdfDriverCreateStatus ∧
      (∀ c ∈ (DriverEntry env D s0).2.stmts, c.stage ≤ 1) ∧
      (finalState env D s0).DriverObject.MajorFunction = s0.DriverObject.MajorFunction) ∧
    (NT_SUCCESS env.wdfDriverCreateStatus = true →
      NT_SUCCESS env.ioCreateDeviceStatus = false →
      (DriverEntry env D s0).1 = env.ioCreateDeviceStatus ∧
      ∀ c ∈ (DriverEntry env D s0).2.stmts, c.stage ≤ 2) ∧
    (NT_SUCCESS env.wdfDriverCreateStatus = true →
      NT_SUCCESS env.ioCreateDeviceStatus = true →
      NT_SUCCESS env.ioCreateSymbolicLinkStatus = false →
      (DriverEntry env D s0).1 = env.ioCreateSymbolicLinkStatus ∧
      ∀ c ∈ (DriverEntry env D s0).2.stmts, c.stage ≤ 3) ∧
    (NT_SUCCESS (DriverEntry env D s0).1 = false →
      (finalState env D s0).DriverObject.MajorFunction
        = (WdfDriverCreate env s0).DriverObject.MajorFunction ∧
      (finalState env D s0).DriverObject.DriverUnload = s0.DriverObject.DriverUnload ∧
      (finalState env D s0).managers = s0.managers ∧
      (finalState env D s0).g_CKMDFmanager = s0.g_CKMDFmanager) := by
  refine ⟨DriverEntry_success_iff env D s0, ?_, ?_, ?_, ?_⟩
  · intro h1
    simp [finalState, DriverEntry, h1, Run.stmts, Stmt.stage, WPP_INIT_TRACING, WdfDriverCreate,
      WPP_CLEANUP]
  · intro h1 h2
    simp [DriverEntry, h1, h2, Run.stmts, Stmt.stage]
  · intro h1 h2 h3
    simp [DriverEntry, h1, h2, h3, Run.stmts, Stmt.stage]
  · intro h
    cases h1 : NT_SUCCESS env.wdfDriverCreateStatus
    · simp [finalState, DriverEntry, h1, WPP_INIT_TRACING, WdfDriverCreate, WPP_CLEANUP]
    cases h2 : NT_SUCCESS env.ioCreateDeviceStatus
    · simp [finalState, DriverEntry, h1, h2, WPP_INIT_TRACING, WdfDriverCreate, IoCreateDevice]
    cases h3 : NT_SUCCESS env.ioCreateSymbolicLinkStatus
    · simp [finalState, DriverEntry, h1, h2, h3, WPP_INIT_TRACING, WdfDriverCreate, IoCreateDevice,
        IoCreateSymbolicLink, IoDeleteDevice]
    · simp [DriverEntry, h1, h2, h3] at h

/-- C4 at three concrete runs, one for each stage that can fail. -/
theorem C4_status_of_first_failure_witness :
    (NT_SUCCESS (envWith (-1) 0 0 (some 7)).wdfDriverCreateStatus = false ∧
      (DriverEntry (envWith (-1) 0 0 (some 7)) 1 (emptyState kernelDriverObject)).1 = -1 ∧
      ∀ c ∈ (DriverEntry (envWith (-1) 0 0 (some 7)) 1 (emptyState kernelDriverObject)).2.stmts,
        c.stage ≤ 1) ∧
    (NT_SUCCESS (envWith 0 (-2) 0 (some 7)).wdfDriverCreateStatus = true ∧
      NT_SUCCESS (envWith 0 (-2) 0 (some 7)).ioCreateDeviceStatus = false ∧
      (DriverEntry (envWith 0 (-2) 0 (some 7)) 1 (emptyState kernelDriverObject)).1 = -2 ∧
      ∀ c ∈ (DriverEntry (envWith 0 (-2) 0 (some 7)) 1 (emptyState kernelDriverObject)).2.stmts,
        c.stage ≤ 2) ∧
    (NT_SUCCESS (envWith 0 0 (-3) (some 7)).wdfDriverCreateStatus = true ∧
      NT_SUCCESS (envWith 0 0 (-3) (some 7)).ioCreateDeviceStatus = true ∧
      NT_SUCCESS (envWith 0 0 (-3) (some 7)).ioCreateSymbolicLinkStatus = false ∧
      (DriverEntry (envWith 0 0 (-3) (some 7)) 1 (emptyState kernelDriverObject)).1 = -3 ∧
      ∀ c ∈ (DriverEntry (envWith 0 0 (-3) (some 7)) 1 (emptyState kernelDriverObject)).2.stmts,
        c.stage ≤ 3) :=
  ⟨⟨by decide,
      ((C4_status_of_first_failure (envWith (-1) 0 0 (some 7)) 1
        (emptyState kernelDriverObject)).2.1 (by decide)).1,
      ((C4_status_of_first_failure (envWith (-1) 0 0 (some 7)) 1
        (emptyState kernelDriverObject)).2.1 (by decide)).2.1⟩,
    ⟨by decide, by decide,
      (C4_status_of_first_failure (envWith 0 (-2) 0 (some 7)) 1
        (emptyState kernelDriverObject)).2.2.1 (by decide) (by decide)⟩,
    ⟨by decide, by decide, by decide,
      (C4_status_of_first_failure (envWith 0 0 (-3) (some 7)) 1
        (emptyState kernelDriverObject)).2.2.2.1 (by decide) (by decide) (by decide)⟩⟩

/-! ## Rollback -/

/-- C5: when `DriverEntry` returns a failure status, every device object that
exists at return existed at entry and the symbolic links are those of entry;
when `IoCreateDevice` had succeeded, `IoDeleteDevice` was executed on the
device object just created, which existed until then and does not exist at
return. -/
theorem C5_failure_leaves_nothing (env : Env) (D : Addr) (s0 : State)
    (hfail : NT_SUCCESS (DriverEntry env D s0).1 = false) :
    (∀ d ∈ (finalState env D s0).devices, d ∈ s0.devices) ∧
    (finalState env D s0).symlinks = s0.symlinks ∧
    (NT_SUCCESS env.wdfDriverCreateStatus = true →
      NT_SUCCESS env.ioCreateDeviceStatus = true →
      deviceAt (finalState env D s0) env.deviceAddr = none ∧
      ∃ t, (t, Stmt.IoDeleteDevice (some env.deviceAddr)) ∈ (DriverEntry env D s0).2.trace ∧
        deviceAt t env.deviceAddr = some ⟨env.DRIVER_NAME, env.deviceFlags⟩) := by
  cases h1 : NT_SUCCESS env.wdfDriverCreateStatus
  · simp [finalState, DriverEntry, h1, WPP_INIT_TRACING, WdfDriverCreate, WPP_CLEANUP]
  cases h2 : NT_SUCCESS env.ioCreateDeviceStatus
  · simp [finalState, DriverEntry, h1, h2, WPP_INIT_TRACING, WdfDriverCreate, IoCreateDevice]
  cases h3 : NT_SUCCESS env.ioCreateSymbolicLinkStatus
  · refine ⟨?_, ?_, ?_⟩
    · simp [finalState, DriverEntry, h1, h2, h3, WPP_INIT_TRACING, WdfDriverCreate,
        IoCreateDevice, IoCreateSymbolicLink, IoDeleteDevice]
      intro a b hab _
      exact hab
    · simp [finalState, DriverEntry, h1, h2, h3, WPP_INIT_TRACING, WdfDriverCreate,
        IoCreateDevice, IoCreateSymbolicLink, IoDeleteDevice]
    · intro _ _
      refine ⟨?_, ?_⟩
      · simp [finalState, DriverEntry, h1, h2, h3, WPP_INIT_TRACING, WdfDriverCreate,
          IoCreateDevice, IoCreateSymbolicLink, IoDeleteDevice, deviceAt]
      · refine ⟨IoCreateSymbolicLink env env.DRIVER_SYMBOLICLINK env.DRIVER_NAME
          (IoCreateDevice env env.DRIVER_NAME (WdfDriverCreate env
            (WPP_INIT_TRACING { s0 with g_DvriverObject := some D }))), ?_, ?_⟩
        · simp [DriverEntry, h1, h2, h3, IoCreateSymbolicLink, IoCreateDevice]
        · simp [h1, h2, h3, WPP_INIT_TRACING, WdfDriverCreate,
            IoCreateDevice, IoCreateSymbolicLink, deviceAt]
  · simp [DriverEntry, h1, h2, h3] at hfail

/-- C5 at a concrete run in which alias creation fails. -/
theorem C5_failure_leaves_nothing_witness :
    NT_SUCCESS (DriverEntry (envWith 0 0 (-3) (some 7)) 1 (emptyState kernelDriverObject)).1
      = false ∧
    (finalState (envWith 0 0 (-3) (some 7)) 1 (emptyState kernelDriverObject)).symlinks = [] ∧
    deviceAt (finalState (envWith 0 0 (-3) (some 7)) 1 (emptyState kernelDriverObject)) 4096
      = none :=
  ⟨by decide,
    (C5_failure_leaves_nothing (envWith 0 0 (-3) (some 7)) 1 (emptyState kernelDriverObject)
      (by decide)).2.1,
    ((C5_failure_leaves_nothing (envWith 0 0 (-3) (some 7)) 1 (emptyState kernelDriverObject)
      (by decide)).2.2 (by decide) (by decide)).1⟩

/-! ## Manager construction -/

/-- C6: when `WdfDriverCreate`, `IoCreateDevice` and `IoCreateSymbolicLink`
succeed, `DriverEntry` returns the same success status and leaves the same
driver object (dispatch table and unload routine), the same device objects
and the same symbolic links whether `new CKmdfManager` yields null or an
instance `m`; when it yields null, `g_CKMDFmanager` is null at return and
`InitManager` is not called. -/
theorem C6_manager_failure_is_not_fatal (env : Env) (D : Addr) (s0 : State) (m : Addr)
    (h1 : NT_SUCCESS env.wdfDriverCreateStatus = true)
    (h2 : NT_SUCCESS env.ioCreateDeviceStatus = true)
    (h3 : NT_SUCCESS env.ioCreateSymbolicLinkStatus = true) :
    NT_SUCCESS (DriverEntry { env with newManager := none } D s0).1 = true ∧
    (DriverEntry { env with newManager := none } D s0).1
      = (DriverEntry { env with newManager := some m } D s0).1 ∧
    (finalState { env with newManager := none } D s0).DriverObject.MajorFunction
      = (finalState { env with newManager := some m } D s0).DriverObject.MajorFunction ∧
    (finalState { env with newManager := none } D s0).DriverObject.DriverUnload
      = (finalState { env with newManager := some m } D s0).DriverObject.DriverUnload ∧
    (finalState { env with newManager := none } D s0).devices
      = (finalState { env with newManager := some m } D s0).devices ∧
    (finalState { env with newManager := none } D s0).symlinks
      = (finalState { env with newManager := some m } D s0).symlinks ∧
    (finalState { env with newManager := none } D s0).g_CKMDFmanager = none ∧
    ∀ a, Stmt.InitManager a ∉ (DriverEntry { env with newManager := none } D s0).2.stmts := by
  have hnull := DriverEntry_stmts_success { env with newManager := none } D s0 h1 h2 h3
  refine ⟨?_, ?_, ?_, ?_, ?_, ?_, ?_, ?_⟩
  · exact (DriverEntry_success_iff _ D s0).2 ⟨h1, h2, h3⟩
  · simp [DriverEntry, h1, h2, h3]
  case refine_8 =>
    intro a
    rw [hnull]
    simp
  all_goals simp [finalState, DriverEntry, h1, h2, h3, fillLoop_cur,
    WPP_INIT_TRACING, WdfDriverCreate, IoCreateDevice, IoCreateSymbolicLink, storeMajorFunction,
    storeDriverUnload, orFlags, fillState]

/-- C6 at a concrete run in which the three stages succeed. -/
theorem C6_manager_failure_is_not_fatal_witness :
    NT_SUCCESS (envWith 0 0 0 (some 7)).ioCreateSymbolicLinkStatus = true ∧
    (finalState { envWith 0 0 0 (some 7) with newManager := none } 1
        (emptyState kernelDriverObject)).devices
      = (finalState { envWith 0 0 0 (some 7) with newManager := some 9 } 1
        (emptyState kernelDriverObject)).devices :=
  ⟨by decide,
    (C6_manager_failure_is_not_fatal (envWith 0 0 0 (some 7)) 1 (emptyState kernelDriverObject) 9
      (by decide) (by decide) (by decide)).2.2.2.2.1⟩


/-! ## Alias and device -/

/-- Along the trace and at return, from a state without the alias: the alias
exists only if the device does, the alias is created only when the device
exists, and the device is deleted only when the alias does not exist. -/
theorem DriverEntry_alias_device (env : Env) (D : Addr) (s0 : State)
    (ha : aliasExists env s0 = false) :
    (∀ p ∈ (DriverEntry env D s0).2.trace,
      (aliasExists env p.1 = true → deviceExists env p.1 = true) ∧
      (p.2 = Stmt.IoCreateSymbolicLink → deviceExists env p.1 = true) ∧
      ((∃ a, p.2 = Stmt.IoDeleteDevice a) → aliasExists env p.1 = false)) ∧
    (aliasExists env (DriverEntry env D s0).2.cur = true →
      deviceExists env (DriverEntry env D s0).2.cur = true) := by
  unfold aliasExists at ha
  cases h1 : NT_SUCCESS env.wdfDriverCreateStatus
  · simp only [DriverEntry, h1, Bool.not_false, if_true]
    refine ⟨?_, ?_⟩
    · refine trace_exec _ _ _ _ ?_ ?_
      refine trace_exec _ _ _ _ ?_ ?_
      refine trace_exec _ _ _ _ ?_ ?_
      refine trace_exec _ _ _ _ ?_ ?_
      exact trace_start _ _
      all_goals simp [aliasExists, deviceExists, WPP_INIT_TRACING, WdfDriverCreate, h1, ha,
        -List.any_eq_true, -List.any_eq_false]
    · simp [aliasExists, deviceExists, WPP_INIT_TRACING, WdfDriverCreate, WPP_CLEANUP, h1, ha,
        -List.any_eq_true, -List.any_eq_false]
  cases h2 : NT_SUCCESS env.ioCreateDeviceStatus
  · simp only [DriverEntry, h1, h2, Bool.not_false, Bool.not_true, if_true, Bool.false_eq_true,
      if_false]
    refine ⟨?_, ?_⟩
    · refine trace_exec _ _ _ _ ?_ ?_
      refine trace_exec _ _ _ _ ?_ ?_
      refine trace_exec _ _ _ _ ?_ ?_
      refine trace_exec _ _ _ _ ?_ ?_
      exact trace_start _ _
      all_goals simp [aliasExists, deviceExists, WPP_INIT_TRACING, WdfDriverCreate, h1, ha,
        -List.any_eq_true, -List.any_eq_false]
    · simp [aliasExists, deviceExists, WPP_INIT_TRACING, WdfDriverCreate, IoCreateDevice, h1, h2,
        ha, -List.any_eq_true, -List.any_eq_false]
  cases h3 : NT_SUCCESS env.ioCreateSymbolicLinkStatus
  · simp only [DriverEntry, h1, h2, h3, Bool.not_false, Bool.not_true, if_true,
      Bool.false_eq_true, if_false]
    refine ⟨?_, ?_⟩
    · refine trace_exec _ _ _ _ ?_ ?_
      refine trace_exec _ _ _ _ ?_ ?_
      refine trace_exec _ _ _ _ ?_ ?_
      refine trace_exec _ _ _ _ ?_ ?_
      refine trace_exec _ _ _ _ ?_ ?_
      refine trace_exec _ _ _ _ ?_ ?_
      exact trace_start _ _
      all_goals simp [aliasExists, deviceExists, WPP_INIT_TRACING, WdfDriverCreate,
        IoCreateDevice, IoCreateSymbolicLink, h1, h2, h3, ha,
        -List.any_eq_true, -List.any_eq_false]
    · simp [aliasExists, deviceExists, WPP_INIT_TRACING, WdfDriverCreate, IoCreateDevice,
        IoCreateSymbolicLink, IoDeleteDevice, h1, h2, h3,
        ha, -List.any_eq_true, -List.any_eq_false]
  · simp only [DriverEntry, h1, h2, h3, Bool.not_true, Bool.false_eq_true, if_false]
    refine ⟨?_, ?_⟩
    · refine trace_initIfPresent _ _ ?_ ?init
      refine trace_exec _ _ _ _ ?_ ?_
      refine trace_exec _ _ _ _ ?_ ?_
      refine trace_exec _ _ _ _ ?_ ?_
      refine trace_exec _ _ _ _ ?_ ?_
      refine trace_exec _ _ _ _ ?_ ?_
      refine trace_exec _ _ _ _ ?_ ?_
      refine trace_exec _ _ _ _ ?_ ?_
      refine trace_fillLoop _ _ _ ?_ ?loop
      refine trace_exec _ _ _ _ ?_ ?_
      refine trace_exec _ _ _ _ ?_ ?_
      refine trace_exec _ _ _ _ ?_ ?_
      refine trace_exec _ _ _ _ ?_ ?_
      refine trace_exec _ _ _ _ ?_ ?_
      exact trace_start _ _
      case loop =>
        intro t i hdev _ _ _ _ _
        simp [deviceExists, hdev, WPP_INIT_TRACING, WdfDriverCreate, IoCreateDevice,
          IoCreateSymbolicLink, h1, h2, h3, -List.any_eq_true, -List.any_eq_false]
      case init =>
        intro m _
        simp [deviceExists, WPP_INIT_TRACING, WdfDriverCreate, IoCreateDevice,
          IoCreateSymbolicLink, storeMajorFunction, storeDriverUnload, orFlags, fillLoop_cur,
          fillState, h1, h2, h3, -List.any_eq_true, -List.any_eq_false]
      all_goals simp [aliasExists, deviceExists, WPP_INIT_TRACING, WdfDriverCreate,
        IoCreateDevice, IoCreateSymbolicLink, storeMajorFunction, storeDriverUnload, orFlags,
        fillLoop_cur, fillState, h1, h2, h3, ha,
        -List.any_eq_true, -List.any_eq_false]
    · rw [initIfPresent_cur]
      cases hm : env.newManager <;>
      simp [aliasExists, deviceExists, WPP_INIT_TRACING, WdfDriverCreate,
        IoCreateDevice, IoCreateSymbolicLink, storeMajorFunction, storeDriverUnload, orFlags,
        newCKmdfManager, InitManager, fillLoop_cur, fillState, h1, h2, h3, hm, ha,
        -List.any_eq_true, -List.any_eq_false]

/-- C7: started in a state in which neither the alias nor the device exists,
`DriverEntry` passes only through states in which the alias exists only if
the device exists; `IoCreateSymbolicLink` is executed only in a state in
which the device exists, and `IoDeleteDevice` only in a state in which the
alias does not exist. -/
theorem C7_alias_implies_device (env : Env) (D : Addr) (s0 : State)
    (ha : aliasExists env s0 = false) (_hd : deviceExists env s0 = false) :
    (∀ t ∈ (DriverEntry env D s0).2.states,
      aliasExists env t = true → deviceExists env t = true) ∧
    (∀ p ∈ (DriverEntry env D s0).2.trace,
      p.2 = Stmt.IoCreateSymbolicLink → deviceExists env p.1 = true) ∧
    (∀ p ∈ (DriverEntry env D s0).2.trace,
      (∃ a, p.2 = Stmt.IoDeleteDevice a) → aliasExists env p.1 = false) := by
  obtain ⟨htr, hcur⟩ := DriverEntry_alias_device env D s0 ha
  refine ⟨?_, fun p hp => (htr p hp).2.1, fun p hp => (htr p hp).2.2⟩
  intro t ht
  rcases (mem_states _ t).1 ht with ⟨c, hc⟩ | rfl
  · exact (htr (t, c) hc).1
  · exact hcur

/-- C7 at a concrete successful run. -/
theorem C7_alias_implies_device_witness :
    aliasExists (envWith 0 0 0 (some 7)) (emptyState kernelDriverObject) = false ∧
    deviceExists (envWith 0 0 0 (some 7)) (emptyState kernelDriverObject) = false ∧
    ∀ t ∈ (DriverEntry (envWith 0 0 0 (some 7)) 1 (emptyState kernelDriverObject)).2.states,
      aliasExists (envWith 0 0 0 (some 7)) t = true →
        deviceExists (envWith 0 0 0 (some 7)) t = true :=
  ⟨by decide, by decide,
    (C7_alias_implies_device (envWith 0 0 0 (some 7)) 1 (emptyState kernelDriverObject)
      (by decide) (by decide)).1⟩

/-! ## Manager timing -/

/-- C8: in every run `new CKmdfManager` is executed at most once (once in a
run that succeeds), and only in a state in which the device object exists,
the alias exists and the dispatch table is fully populated: every slot
`0 .. IRP_MJ_MAXIMUM_FUNCTION` holds a non-null handler and the table already
is the table of the return; in a successful run the creation of the device,
the creation of the alias and every store of lines 128-136 come before it in
the order of execution and only the call of `InitManager` comes after it;
a run that returns a failure status does not execute it and leaves
`g_CKMDFmanager` and the manager instances as they were; `InitManager` is
called once on the instance `new` yielded when the run succeeds and that
instance is non-null, and never otherwise; after a successful run
`g_CKMDFmanager` is what `new` yielded. -/
theorem C8_manager_once_and_late (env : Env) (D : Addr) (s0 : State) :
    (DriverEntry env D s0).2.stmts.count Stmt.newCKmdfManager ≤ 1 ∧
    (∀ p ∈ (DriverEntry env D s0).2.trace, p.2 = Stmt.newCKmdfManager →
      (deviceAt p.1 env.deviceAddr).isSome = true ∧
      deviceExists env p.1 = true ∧
      aliasExists env p.1 = true ∧
      (∀ i, p.1.DriverObject.MajorFunction i
        = (finalState env D s0).DriverObject.MajorFunction i) ∧
      (∀ i, i ≤ IRP_MJ_MAXIMUM_FUNCTION → p.1.DriverObject.MajorFunction i ≠ none)) ∧
    (NT_SUCCESS (DriverEntry env D s0).1 = true →
      (DriverEntry env D s0).2.stmts.count Stmt.newCKmdfManager = 1 ∧
      ∃ before after,
        (DriverEntry env D s0).2.stmts = before ++ Stmt.newCKmdfManager :: after ∧
        Stmt.IoCreateDevice ∈ before ∧ Stmt.IoCreateSymbolicLink ∈ before ∧
        (∀ i, i < IRP_MJ_MAXIMUM_FUNCTION →
          Stmt.storeMajorFunction i .DriverContrlProcess ∈ before) ∧
        Stmt.storeMajorFunction IRP_MJ_CREATE .DriverCreate ∈ before ∧
        Stmt.storeMajorFunction IRP_MJ_READ .DriverRead ∈ before ∧
        Stmt.storeMajorFunction IRP_MJ_WRITE .DriverWrite ∈ before ∧
        Stmt.storeMajorFunction IRP_MJ_CLEANUP .DriverClose ∈ before ∧
        ∀ c ∈ after, ∃ m, c = Stmt.InitManager m) ∧
    (NT_SUCCESS (DriverEntry env D s0).1 = false →
      Stmt.newCKmdfManager ∉ (DriverEntry env D s0).2.stmts ∧
      (finalState env D s0).g_CKMDFmanager = s0.g_CKMDFmanager ∧
      (finalState env D s0).managers = s0.managers) ∧
    (∀ m, (DriverEntry env D s0).2.stmts.count (Stmt.InitManager m) =
      if NT_SUCCESS (DriverEntry env D s0).1 = true ∧ env.newManager = some m then 1 else 0) ∧
    (NT_SUCCESS (DriverEntry env D s0).1 = true →
      (finalState env D s0).g_CKMDFmanager = env.newManager) := by
  cases h1 : NT_SUCCESS env.wdfDriverCreateStatus
  · simp [finalState, DriverEntry, h1, Run.stmts, WPP_INIT_TRACING, WdfDriverCreate, WPP_CLEANUP]
  cases h2 : NT_SUCCESS env.ioCreateDeviceStatus
  · simp [finalState, DriverEntry, h1, h2, Run.stmts, WPP_INIT_TRACING, WdfDriverCreate,
      IoCreateDevice]
  cases h3 : NT_SUCCESS env.ioCreateSymbolicLinkStatus
  · simp [finalState, DriverEntry, h1, h2, h3, Run.stmts, WPP_INIT_TRACING, WdfDriverCreate,
      IoCreateDevice, IoCreateSymbolicLink, IoDeleteDevice]
  have hs : NT_SUCCESS (DriverEntry env D s0).1 = true :=
    (DriverEntry_success_iff env D s0).2 ⟨h1, h2, h3⟩
  have hst := DriverEntry_stmts_success env D s0 h1 h2 h3
  have htab := DriverEntry_table env D s0 hs
  have hnew : ((List.range IRP_MJ_MAXIMUM_FUNCTION).map
      (fun i => Stmt.storeMajorFunction i .DriverContrlProcess)).count Stmt.newCKmdfManager
      = 0 := List.count_eq_zero.2 (by simp)
  have hinit : ∀ m, ((List.range IRP_MJ_MAXIMUM_FUNCTION).map
      (fun i => Stmt.storeMajorFunction i .DriverContrlProcess)).count (Stmt.InitManager m)
      = 0 := fun m => List.count_eq_zero.2 (by simp)
  refine ⟨?_, ?_, ?_, ?_, ?_, ?_⟩
  · rw [hst]
    cases env.newManager <;> simp [List.count_append, hnew, List.count_cons]
  rotate_left
  · intro _
    refine ⟨?_, ?_⟩
    · rw [hst]
      cases env.newManager <;> simp [List.count_append, hnew, List.count_cons]
    · refine ⟨[Stmt.store_g_DvriverObject, .WPP_INIT_TRACING, .WdfDriverCreate, .IoCreateDevice,
          .IoCreateSymbolicLink]
        ++ (List.range IRP_MJ_MAXIMUM_FUNCTION).map
          (fun i => Stmt.storeMajorFunction i .DriverContrlProcess)
        ++ [Stmt.storeMajorFunction IRP_MJ_CREATE .DriverCreate,
          .storeMajorFunction IRP_MJ_READ .DriverRead,
          .storeMajorFunction IRP_MJ_WRITE .DriverWrite,
          .storeMajorFunction IRP_MJ_CLEANUP .DriverClose,
          .storeDriverUnload, .orFlags],
        (match env.newManager with
          | some m => [Stmt.InitManager m]
          | none => []), ?_, ?_⟩
      · rw [hst]
        simp
      · cases env.newManager <;> simp
  rotate_right
  · simp only [htab]
    simp only [DriverEntry, h1, h2, h3, Bool.not_true, Bool.false_eq_true, if_false]
    refine trace_initIfPresent _ _ ?_ ?init
    refine trace_exec _ _ _ _ ?_ ?new
    refine trace_exec _ _ _ _ ?_ ?_
    refine trace_exec _ _ _ _ ?_ ?_
    refine trace_exec _ _ _ _ ?_ ?_
    refine trace_exec _ _ _ _ ?_ ?_
    refine trace_exec _ _ _ _ ?_ ?_
    refine trace_exec _ _ _ _ ?_ ?_
    refine trace_fillLoop _ _ _ ?_ ?loop
    refine trace_exec _ _ _ _ ?_ ?_
    refine trace_exec _ _ _ _ ?_ ?_
    refine trace_exec _ _ _ _ ?_ ?_
    refine trace_exec _ _ _ _ ?_ ?_
    refine trace_exec _ _ _ _ ?_ ?_
    exact trace_start _ _
    case loop =>
      intro t i _ _ _ _ _ _ hc
      simp at hc
    case init =>
      intro m _ hc
      simp at hc
    case new =>
      intro _
      simp [deviceAt, aliasExists, deviceExists, WPP_INIT_TRACING, WdfDriverCreate,
        IoCreateDevice, IoCreateSymbolicLink, storeMajorFunction, storeDriverUnload, orFlags,
        fillLoop_cur, fillState, h1, h2, h3]
      intro i hi
      split_ifs <;> simp
    all_goals simp
  · simp [hs]
  · intro m
    rw [hst]
    cases hm : env.newManager <;> simp [List.count_append, hinit, List.count_cons, hs]
  · intro _
    simp [finalState, DriverEntry, h1, h2, h3, initIfPresent_cur, InitManager]
    cases hm : env.newManager <;> simp [newCKmdfManager, hm]

/-- C8 at a concrete successful run that starts from a driver object whose
slots are all null: the manager is constructed, once, in a state in which
every slot of the dispatch table holds a non-null handler and the device and
the alias exist. -/
theorem C8_manager_once_and_late_witness :
    NT_SUCCESS (DriverEntry (envWith 0 0 0 (some 7)) 1 (emptyState nullDriverObject)).1 = true ∧
    (DriverEntry (envWith 0 0 0 (some 7)) 1 (emptyState nullDriverObject)).2.stmts.count
      Stmt.newCKmdfManager = 1 ∧
    ∃ p ∈ (DriverEntry (envWith 0 0 0 (some 7)) 1 (emptyState nullDriverObject)).2.trace,
      p.2 = Stmt.newCKmdfManager ∧
      (∀ i, i ≤ IRP_MJ_MAXIMUM_FUNCTION → p.1.DriverObject.MajorFunction i ≠ none) ∧
      deviceExists (envWith 0 0 0 (some 7)) p.1 = true ∧
      aliasExists (envWith 0 0 0 (some 7)) p.1 = true := by
  have hmem : Stmt.newCKmdfManager ∈
      (DriverEntry (envWith 0 0 0 (some 7)) 1 (emptyState nullDriverObject)).2.stmts := by
    decide
  obtain ⟨p, hp, hp2⟩ := List.mem_map.1 hmem
  have h := (C8_manager_once_and_late (envWith 0 0 0 (some 7)) 1
    (emptyState nullDriverObject)).2.1 p hp hp2
  exact ⟨by decide,
    ((C8_manager_once_and_late (envWith 0 0 0 (some 7)) 1
      (emptyState nullDriverObject)).2.2.1 (by decide)).1,
    p, hp, hp2, h.2.2.2.2, h.2.1, h.2.2.1⟩

/-! ## Device flags -/

/-- C9: after a successful `DriverEntry`, `g_DvriverControlObject` points to
the device object `IoCreateDevice` created, which exists; its `Flags` are the
`Flags` it was created with, or-ed with `DO_DIRECT_IO`: the bit of
`DO_DIRECT_IO` (bit 4) is set and every other bit is as at creation.  The
state in which `IoCreateSymbolicLink` was executed, right after creation,
shows the device with the `Flags` of creation. -/
theorem C9_direct_io_flag (env : Env) (D : Addr) (s0 : State)
    (h : NT_SUCCESS (DriverEntry env D s0).1 = true) :
    (finalState env D s0).g_DvriverControlObject = some env.deviceAddr ∧
    (∃ t, (t, Stmt.IoCreateSymbolicLink) ∈ (DriverEntry env D s0).2.trace ∧
      deviceAt t env.deviceAddr = some ⟨env.DRIVER_NAME, env.deviceFlags⟩) ∧
    ∃ dev, deviceAt (finalState env D s0) env.deviceAddr = some dev ∧
      dev.Flags = env.deviceFlags ||| DO_DIRECT_IO ∧
      dev.Flags &&& DO_DIRECT_IO = DO_DIRECT_IO ∧
      dev.Flags.testBit 4 = true ∧
      ∀ k, k ≠ 4 → dev.Flags.testBit k = env.deviceFlags.testBit k := by
  obtain ⟨h1, h2, h3⟩ := (DriverEntry_success_iff env D s0).1 h
  refine ⟨?_, ?_, ⟨env.DRIVER_NAME, env.deviceFlags ||| DO_DIRECT_IO⟩, ?_, rfl, ?_, ?_, ?_⟩
  · simp [finalState, DriverEntry, h1, h2, h3, fillLoop_cur, WPP_INIT_TRACING, WdfDriverCreate,
      IoCreateDevice, IoCreateSymbolicLink, storeMajorFunction, storeDriverUnload, orFlags,
      fillState]
  · refine ⟨IoCreateDevice env env.DRIVER_NAME (WdfDriverCreate env
      (WPP_INIT_TRACING { s0 with g_DvriverObject := some D })), ?_, ?_⟩
    · simp [DriverEntry, h1, h2, h3, initIfPresent_trace, fillLoop_trace]
    · simp [h1, h2, WPP_INIT_TRACING, WdfDriverCreate, IoCreateDevice, deviceAt]
  · simp [finalState, DriverEntry, h1, h2, h3, fillLoop_cur, WPP_INIT_TRACING, WdfDriverCreate,
      IoCreateDevice, IoCreateSymbolicLink, storeMajorFunction, storeDriverUnload, orFlags,
      fillState, deviceAt]
  · show (env.deviceFlags ||| DO_DIRECT_IO) &&& DO_DIRECT_IO = DO_DIRECT_IO
    apply Nat.eq_of_testBit_eq
    intro k
    simp only [Nat.testBit_and, Nat.testBit_or]
    cases env.deviceFlags.testBit k <;> simp
  · show (env.deviceFlags ||| DO_DIRECT_IO).testBit 4 = true
    rw [Nat.testBit_or]
    have : ( DO_DIRECT_IO).testBit 4 = true := by decide
    simp [this]
  · intro k hk
    show (env.deviceFlags ||| DO_DIRECT_IO).testBit k = env.deviceFlags.testBit k
    have h16 : DO_DIRECT_IO = 2 ^ 4 := by decide
    rw [Nat.testBit_or, h16, Nat.testBit_two_pow]
    have : decide (4 = k) = false := by simpa using fun h4 : 4 = k => hk h4.symm
    simp [this]

/-- C9 at a concrete successful run: the device is created with `Flags` 0x80
and has `Flags` 0x90 at return. -/
theorem C9_direct_io_flag_witness :
    NT_SUCCESS (DriverEntry (envWith 0 0 0 (some 7)) 1 (emptyState kernelDriverObject)).1 = true ∧
    (finalState (envWith 0 0 0 (some 7)) 1 (emptyState kernelDriverObject)).g_DvriverControlObject
      = some 4096 :=
  ⟨by decide,
    (C9_direct_io_flag (envWith 0 0 0 (some 7)) 1 (emptyState kernelDriverObject) (by decide)).1⟩

/-! ## The recorded device handle -/

/-- C10 as stated fails: in the run in which `IoCreateSymbolicLink` fails,
started with `g_DvriverControlObject` null, the handle is non-null at return
although the device it designates does not exist. -/
theorem C10_handle_dangles_after_rollback :
    (emptyState kernelDriverObject).g_DvriverControlObject = none ∧
    (finalState (envWith 0 0 (-3) none) 1 (emptyState kernelDriverObject)).g_DvriverControlObject
      = some 4096 ∧
    deviceAt (finalState (envWith 0 0 (-3) none) 1 (emptyState kernelDriverObject)) 4096 = none ∧
    ¬ ((finalState (envWith 0 0 (-3) none) 1
          (emptyState kernelDriverObject)).g_DvriverControlObject.isSome = true ↔
        handleLive (finalState (envWith 0 0 (-3) none) 1 (emptyState kernelDriverObject))
          = true) := by
  decide

/-- C10 as amended: started with `g_DvriverControlObject` null, a run that
returns a success status leaves the handle pointing to the device object
that exists; a run in which `WdfDriverCreate` or `IoCreateDevice` fails
leaves the handle null; a run in which `IoCreateSymbolicLink` fails deletes
the device and leaves the handle holding the address of the deleted device
object. -/
theorem C10_handle_after_startup (env : Env) (D : Addr) (s0 : State)
    (h0 : s0.g_DvriverControlObject = none) :
    (NT_SUCCESS (DriverEntry env D s0).1 = true →
      (finalState env D s0).g_DvriverControlObject = some env.deviceAddr ∧
      handleLive (finalState env D s0) = true) ∧
    ((NT_SUCCESS env.wdfDriverCreateStatus = false ∨
        NT_SUCCESS env.ioCreateDeviceStatus = false) →
      (finalState env D s0).g_DvriverControlObject = none ∧
      handleLive (finalState env D s0) = false) ∧
    (NT_SUCCESS env.wdfDriverCreateStatus = true →
      NT_SUCCESS env.ioCreateDeviceStatus = true →
      NT_SUCCESS env.ioCreateSymbolicLinkStatus = false →
      (finalState env D s0).g_DvriverControlObject = some env.deviceAddr ∧
      deviceAt (finalState env D s0) env.deviceAddr = none ∧
      handleLive (finalState env D s0) = false) := by
  cases h1 : NT_SUCCESS env.wdfDriverCreateStatus
  · simp [finalState, DriverEntry, h1, handleLive, WPP_INIT_TRACING, WdfDriverCreate,
      WPP_CLEANUP, h0]
  cases h2 : NT_SUCCESS env.ioCreateDeviceStatus
  · simp [finalState, DriverEntry, h1, h2, handleLive, WPP_INIT_TRACING, WdfDriverCreate,
      IoCreateDevice, h0]
  cases h3 : NT_SUCCESS env.ioCreateSymbolicLinkStatus
  · simp [finalState, DriverEntry, h1, h2, h3, handleLive, deviceAt, WPP_INIT_TRACING,
      WdfDriverCreate, IoCreateDevice, IoCreateSymbolicLink, IoDeleteDevice]
  · simp [finalState, DriverEntry, h1, h2, h3, handleLive, deviceAt, fillLoop_cur,
      WPP_INIT_TRACING, WdfDriverCreate, IoCreateDevice, IoCreateSymbolicLink,
      storeMajorFunction, storeDriverUnload, orFlags, fillState]

/-- C10 as amended, at a concrete successful run. -/
theorem C10_handle_after_startup_witness :
    (emptyState kernelDriverObject).g_DvriverControlObject = none ∧
    NT_SUCCESS (DriverEntry (envWith 0 0 0 none) 1 (emptyState kernelDriverObject)).1 = true ∧
    handleLive (finalState (envWith 0 0 0 none) 1 (emptyState kernelDriverObject)) = true :=
  ⟨rfl, by decide,
    ((C10_handle_after_startup (envWith 0 0 0 none) 1 (emptyState kernelDriverObject) rfl).1
      (by decide)).2⟩

end KMDF
